import Mathlib

/-!
# Verification of the osb sprite/event serialization core

Shallow embedding of the `osb` storyboard library core: the `Fade` event
(`src/event/fade.rs`), the `Sprite` and `EventCollection` types
(`src/visuals/sprite.rs`), and the collaborator types they mention
(`Easing`, `Move`, `Rotate`, `Scale`, `Layer`, `Origin`, `Number`, `Vec2`)
whose source is not part of the two files, modelled from the spec where
a claim depends on them.

Rust `i32` times and values are embedded as `Int` (no arithmetic is
performed on them, only comparisons and decimal rendering, so overflow
cannot occur); `usize` depth is embedded as `Nat`.
-/

/-- `" ".repeat(n)`: a string of `n` space characters. -/
def spaces (n : Nat) : String :=
  String.mk (List.replicate n ' ')

/-- Modelled from the spec: the `Easing` enumeration (`src/easing.rs` is not
in scope), a closed set of interpolation curve kinds each mapping to a fixed
small integer id; the spec pins `Linear` to id 0 and `QuadOut` to id 4, and
the doc examples mention `Out` and `QuadInOut`. -/
inductive Easing where
  | Linear
  | Out
  | In
  | QuadIn
  | QuadOut
  | QuadInOut
deriving DecidableEq

/-- Modelled from the spec: `Easing::id`, the pure total lookup table from
curve kind to renderer id (`Linear = 0`, `QuadOut = 4`). -/
def Easing.id : Easing → Nat
  | .Linear => 0
  | .Out => 1
  | .In => 2
  | .QuadIn => 3
  | .QuadOut => 4
  | .QuadInOut => 5

/-- The `Fade` event (`src/event/fade.rs`):
`Static(depth, time, value)` or
`Dynamic(depth, easing, start_time, end_time, start_value, end_value)`. -/
inductive Fade where
  | Static (depth : Nat) (time : Int) (value : Int)
  | Dynamic (depth : Nat) (easing : Easing) (start_time : Int) (end_time : Int)
      (start_value : Int) (end_value : Int)
deriving DecidableEq

/-- `Fade::to_line` from `impl Event for Fade`: renders
`format!("{} F,{},{},,{}", " ".repeat(depth), Easing::Linear.id(), time, value)`
for `Static` and
`format!("{} F,{},{},{},{},{}", " ".repeat(depth), easing.id(), start_time, end_time, start_value, end_value)`
for `Dynamic`. -/
def Fade.to_line : Fade → String
  | .Static depth time value =>
      spaces depth ++ (" F," ++ toString Easing.Linear.id ++ "," ++ toString time
        ++ ",," ++ toString value)
  | .Dynamic depth easing start_time end_time start_value end_value =>
      spaces depth ++ (" F," ++ toString easing.id ++ "," ++ toString start_time
        ++ "," ++ toString end_time ++ "," ++ toString start_value
        ++ "," ++ toString end_value)

/-- `Fade::set_depth` from `impl Event for Fade`: overwrites the depth field
of either variant, leaving every other field unchanged. -/
def Fade.set_depth : Fade → Nat → Fade
  | .Static _ time value, depth => .Static depth time value
  | .Dynamic _ easing start_time end_time start_value end_value, depth =>
      .Dynamic depth easing start_time end_time start_value end_value

/-- The stored depth of a `Fade` event (the first field of either variant). -/
def Fade.depth : Fade → Nat
  | .Static depth _ _ => depth
  | .Dynamic depth _ _ _ _ _ => depth

/-- Modelled from the spec: `Fade`'s `get_start_time` accessor of the `Event`
trait (the trait's source is not in scope) — for Static the single time value,
for Dynamic the stored `start_time`, literally, with no clamping or swap. -/
def Fade.get_start_time : Fade → Int
  | .Static _ time _ => time
  | .Dynamic _ _ start_time _ _ _ => start_time

/-- Modelled from the spec: `Fade`'s `get_end_time` accessor of the `Event`
trait — for Static the single time value, for Dynamic the stored `end_time`,
literally, with no clamping or swap. -/
def Fade.get_end_time : Fade → Int
  | .Static _ time _ => time
  | .Dynamic _ _ _ end_time _ _ => end_time

/-- `impl Into<Fade> for (i32, i32)`: `(time, value)` becomes
`Fade::Static(0, time, value)`. -/
def fadeOfTimeValue : Int × Int → Fade
  | (time, value) => .Static 0 time value

/-- `impl Into<Fade> for (i32, i32, i32, i32)`:
`(start_time, end_time, start_value, end_value)` becomes
`Fade::Dynamic(0, Easing::Linear, ...)`. -/
def fadeOfTimes : Int × Int × Int × Int → Fade
  | (start_time, end_time, start_value, end_value) =>
      .Dynamic 0 .Linear start_time end_time start_value end_value

/-- `impl Into<Fade> for (Easing, i32, i32, i32, i32)`:
`(easing, start_time, end_time, start_value, end_value)` becomes
`Fade::Dynamic(0, easing, ...)`. -/
def fadeOfEasingTimes : Easing × Int × Int × Int × Int → Fade
  | (easing, start_time, end_time, start_value, end_value) =>
      .Dynamic 0 easing start_time end_time start_value end_value

-- scratch checks against the unit tests in fade.rs
example : (fadeOfTimeValue (0, 1)).to_line = " F,0,0,,1" := by decide
example : ((fadeOfTimeValue (0, 1)).set_depth 2).to_line = "   F,0,0,,1" := by decide
example : (fadeOfTimes (0, 1000, 0, 1)).to_line = " F,0,0,1000,0,1" := by decide
example : (fadeOfEasingTimes (.QuadOut, 0, 1000, 0, 1)).to_line = " F,4,0,1000,0,1" := by
  decide

/-- Modelled from the spec: the canonical number representation produced by
the out-of-scope numeric-coercion helpers (`utils::Number`). The claims only
exercise its integer case (`Number::Int`, rendered as the plain decimal);
the floating-point case is out of a shallow embedding's reach and is not
touched by any claim. -/
inductive Number where
  | Int (i : Int)
deriving DecidableEq

/-- Modelled from the spec: `Display` for `Number` on the integer case —
the plain decimal digits. -/
def Number.toStr : Number → String
  | .Int i => toString i

/-- Modelled from the spec: the out-of-scope 2-D vector type `utils::Vec2`,
two numeric components. -/
structure Vec2 where
  x : Number
  y : Number
deriving DecidableEq

/-- Modelled from the spec: `Vec2::from(x, y)`, pairing two canonical
numbers into a 2-D value (the heterogeneous-input coercion into `Number`
happens before this boundary). -/
def Vec2.from (x y : Number) : Vec2 :=
  ⟨x, y⟩

/-- Modelled from the spec: the fixed closed `Layer` enumeration (a
collaborator, interface only); `Background` is the construction default. -/
inductive Layer where
  | Background
  | Fail
  | Pass
  | Foreground
deriving DecidableEq

/-- Modelled from the spec: `Display` for `Layer` — the variant name. -/
def Layer.toStr : Layer → String
  | .Background => "Background"
  | .Fail => "Fail"
  | .Pass => "Pass"
  | .Foreground => "Foreground"

/-- Modelled from the spec: the fixed closed anchor-`Origin` enumeration (a
collaborator, interface only); `Centre` is the construction default. -/
inductive Origin where
  | TopLeft
  | TopCentre
  | TopRight
  | CentreLeft
  | Centre
  | CentreRight
  | BottomLeft
  | BottomCentre
  | BottomRight
deriving DecidableEq

/-- Modelled from the spec: `Display` for `Origin` — the variant name. -/
def Origin.toStr : Origin → String
  | .TopLeft => "TopLeft"
  | .TopCentre => "TopCentre"
  | .TopRight => "TopRight"
  | .CentreLeft => "CentreLeft"
  | .Centre => "Centre"
  | .CentreRight => "CentreRight"
  | .BottomLeft => "BottomLeft"
  | .BottomCentre => "BottomCentre"
  | .BottomRight => "BottomRight"

/-- Modelled from the spec: the `Move` event (`src/event/move.rs` is not in
scope) — the same two shapes as `Fade` with 2-D values in place of scalars. -/
inductive Move where
  | Static (depth : Nat) (time : Int) (value : Vec2)
  | Dynamic (depth : Nat) (easing : Easing) (start_time : Int) (end_time : Int)
      (start_value : Vec2) (end_value : Vec2)
deriving DecidableEq

/-- Modelled from the spec: `Move::to_line`, the §6 grammar with kind letter
`M` and two numeric components per value. -/
def Move.to_line : Move → String
  | .Static depth time value =>
      spaces depth ++ (" M," ++ toString Easing.Linear.id ++ "," ++ toString time
        ++ ",," ++ value.x.toStr ++ "," ++ value.y.toStr)
  | .Dynamic depth easing start_time end_time start_value end_value =>
      spaces depth ++ (" M," ++ toString easing.id ++ "," ++ toString start_time
        ++ "," ++ toString end_time ++ "," ++ start_value.x.toStr
        ++ "," ++ start_value.y.toStr ++ "," ++ end_value.x.toStr
        ++ "," ++ end_value.y.toStr)

/-- Modelled from the spec: `Move::set_depth`, overwriting only the depth. -/
def Move.set_depth : Move → Nat → Move
  | .Static _ time value, depth => .Static depth time value
  | .Dynamic _ easing start_time end_time start_value end_value, depth =>
      .Dynamic depth easing start_time end_time start_value end_value

/-- The stored depth of a `Move` event. -/
def Move.depth : Move → Nat
  | .Static depth _ _ => depth
  | .Dynamic depth _ _ _ _ _ => depth

/-- Modelled from the spec: `Move`'s `get_start_time` accessor. -/
def Move.get_start_time : Move → Int
  | .Static _ time _ => time
  | .Dynamic _ _ start_time _ _ _ => start_time

/-- Modelled from the spec: `Move`'s `get_end_time` accessor. -/
def Move.get_end_time : Move → Int
  | .Static _ time _ => time
  | .Dynamic _ _ _ end_time _ _ => end_time

/-- Modelled from the spec: the `Rotate` event (`src/event/rotate.rs` is not
in scope) — the same two shapes as `Fade` with scalar numeric values. -/
inductive Rotate where
  | Static (depth : Nat) (time : Int) (value : Number)
  | Dynamic (depth : Nat) (easing : Easing) (start_time : Int) (end_time : Int)
      (start_value : Number) (end_value : Number)
deriving DecidableEq

/-- Modelled from the spec: `Rotate::to_line`, the §6 grammar with kind
letter `R`. -/
def Rotate.to_line : Rotate → String
  | .Static depth time value =>
      spaces depth ++ (" R," ++ toString Easing.Linear.id ++ "," ++ toString time
        ++ ",," ++ value.toStr)
  | .Dynamic depth easing start_time end_time start_value end_value =>
      spaces depth ++ (" R," ++ toString easing.id ++ "," ++ toString start_time
        ++ "," ++ toString end_time ++ "," ++ start_value.toStr
        ++ "," ++ end_value.toStr)

/-- Modelled from the spec: `Rotate::set_depth`, overwriting only the depth. -/
def Rotate.set_depth : Rotate → Nat → Rotate
  | .Static _ time value, depth => .Static depth time value
  | .Dynamic _ easing start_time end_time start_value end_value, depth =>
      .Dynamic depth easing start_time end_time start_value end_value

/-- The stored depth of a `Rotate` event. -/
def Rotate.depth : Rotate → Nat
  | .Static depth _ _ => depth
  | .Dynamic depth _ _ _ _ _ => depth

/-- Modelled from the spec: `Rotate`'s `get_start_time` accessor. -/
def Rotate.get_start_time : Rotate → Int
  | .Static _ time _ => time
  | .Dynamic _ _ start_time _ _ _ => start_time

/-- Modelled from the spec: `Rotate`'s `get_end_time` accessor. -/
def Rotate.get_end_time : Rotate → Int
  | .Static _ time _ => time
  | .Dynamic _ _ _ end_time _ _ => end_time

/-- Modelled from the spec: the `Scale` event (`src/event/scale.rs` is not
in scope) — the same two shapes as `Fade` with scalar numeric values. -/
inductive Scale where
  | Static (depth : Nat) (time : Int) (value : Number)
  | Dynamic (depth : Nat) (easing : Easing) (start_time : Int) (end_time : Int)
      (start_value : Number) (end_value : Number)
deriving DecidableEq

/-- Modelled from the spec: `Scale::to_line`, the §6 grammar with kind
letter `S`. -/
def Scale.to_line : Scale → String
  | .Static depth time value =>
      spaces depth ++ (" S," ++ toString Easing.Linear.id ++ "," ++ toString time
        ++ ",," ++ value.toStr)
  | .Dynamic depth easing start_time end_time start_value end_value =>
      spaces depth ++ (" S," ++ toString easing.id ++ "," ++ toString start_time
        ++ "," ++ toString end_time ++ "," ++ start_value.toStr
        ++ "," ++ end_value.toStr)

/-- Modelled from the spec: `Scale::set_depth`, overwriting only the depth. -/
def Scale.set_depth : Scale → Nat → Scale
  | .Static _ time value, depth => .Static depth time value
  | .Dynamic _ easing start_time end_time start_value end_value, depth =>
      .Dynamic depth easing start_time end_time start_value end_value

/-- The stored depth of a `Scale` event. -/
def Scale.depth : Scale → Nat
  | .Static depth _ _ => depth
  | .Dynamic depth _ _ _ _ _ => depth

/-- Modelled from the spec: `Scale`'s `get_start_time` accessor. -/
def Scale.get_start_time : Scale → Int
  | .Static _ time _ => time
  | .Dynamic _ _ start_time _ _ _ => start_time

/-- Modelled from the spec: `Scale`'s `get_end_time` accessor. -/
def Scale.get_end_time : Scale → Int
  | .Static _ time _ => time
  | .Dynamic _ _ _ end_time _ _ => end_time

/-- `EventCollection` (`src/visuals/sprite.rs`): four per-kind vectors. -/
structure EventCollection where
  move_ : List Move
  fade_ : List Fade
  rotate_ : List Rotate
  scale_ : List Scale
deriving DecidableEq

/-- `EventCollection::new`: four empty vectors. -/
def EventCollection.new : EventCollection :=
  ⟨[], [], [], []⟩

/-- `event.to_line() + "\n"` mapped over a group and joined, as in
`EventCollection::to_str`. -/
def groupLines {α : Type} (line : α → String) (events : List α) : String :=
  String.join (events.map (fun event => line event ++ "\n"))

/-- `EventCollection::to_str`: the `format!("{}{}{}{}", ...)` concatenating
the four groups' joined lines, in the order move, fade, rotate, scale. -/
def EventCollection.to_str (self : EventCollection) : String :=
  groupLines Move.to_line self.move_ ++ groupLines Fade.to_line self.fade_
    ++ groupLines Rotate.to_line self.rotate_ ++ groupLines Scale.to_line self.scale_

/-- The `Sprite` struct (`src/visuals/sprite.rs`). -/
structure Sprite where
  events : EventCollection
  current_depth : Nat
  path : String
  pos : Vec2
  layer : Layer
  origin : Origin
  start_time : Option Int
  end_time : Option Int
deriving DecidableEq

/-- `Sprite::process_event`: folds an event's `(start, end)` pair into the
running window — each branch matches the source's `match`/`if` exactly. -/
def Sprite.process_event (self : Sprite) (event_start event_end : Int) : Sprite :=
  let self1 :=
    match self.start_time with
    | some sprite_start =>
        if event_start < sprite_start then { self with start_time := some event_start }
        else self
    | none => { self with start_time := some event_start }
  match self1.end_time with
  | some sprite_end =>
      if sprite_end < event_end then { self1 with end_time := some event_end }
      else self1
  | none => { self1 with end_time := some event_end }

/-- `Sprite::move_`: process the event's times, stamp the current depth,
push onto the move group. The `Into<Move>` conversion happens at the call
boundary, so the embedding takes the converted event. -/
def Sprite.move_ (self : Sprite) (event : Move) : Sprite :=
  let self1 := self.process_event event.get_start_time event.get_end_time
  let event1 := event.set_depth self1.current_depth
  { self1 with events := { self1.events with move_ := self1.events.move_ ++ [event1] } }

/-- `Sprite::fade_`: process the event's times, stamp the current depth,
push onto the fade group. -/
def Sprite.fade_ (self : Sprite) (event : Fade) : Sprite :=
  let self1 := self.process_event event.get_start_time event.get_end_time
  let event1 := event.set_depth self1.current_depth
  { self1 with events := { self1.events with fade_ := self1.events.fade_ ++ [event1] } }

/-- `Sprite::rotate_`: process the event's times, stamp the current depth,
push onto the rotate group. -/
def Sprite.rotate_ (self : Sprite) (event : Rotate) : Sprite :=
  let self1 := self.process_event event.get_start_time event.get_end_time
  let event1 := event.set_depth self1.current_depth
  { self1 with events := { self1.events with rotate_ := self1.events.rotate_ ++ [event1] } }

/-- `Sprite::scale_`: process the event's times, stamp the current depth,
push onto the scale group. -/
def Sprite.scale_ (self : Sprite) (event : Scale) : Sprite :=
  let self1 := self.process_event event.get_start_time event.get_end_time
  let event1 := event.set_depth self1.current_depth
  { self1 with events := { self1.events with scale_ := self1.events.scale_ ++ [event1] } }

/-- `Sprite::get_x`: the initial X position. -/
def Sprite.get_x (self : Sprite) : Number :=
  self.pos.x

/-- `Sprite::get_y`: the initial Y position. -/
def Sprite.get_y (self : Sprite) : Number :=
  self.pos.y

/-- `Sprite::to_str`: the header
`format!("Sprite,{},{},\"{}\",{},{}\n{}", layer, origin, path, pos.x, pos.y, events)`. -/
def Sprite.to_str (self : Sprite) : String :=
  "Sprite," ++ self.layer.toStr ++ "," ++ self.origin.toStr ++ ",\"" ++ self.path
    ++ "\"," ++ self.pos.x.toStr ++ "," ++ self.pos.y.toStr ++ "\n"
    ++ self.events.to_str

/-- `Sprite::set_layer`: unconditional overwrite. -/
def Sprite.set_layer (self : Sprite) (layer : Layer) : Sprite :=
  { self with layer := layer }

/-- `impl Into<Sprite> for String`: path only, every other field defaulted. -/
def spriteOfString (path : String) : Sprite :=
  { events := EventCollection.new
    current_depth := 0
    path := path
    pos := Vec2.from (.Int 320) (.Int 240)
    layer := .Background
    origin := .Centre
    start_time := none
    end_time := none }

/-- `impl Into<Sprite> for &str`: path only (borrowed), defaults filled. -/
def spriteOfStr (path : String) : Sprite :=
  { events := EventCollection.new
    current_depth := 0
    path := path
    pos := Vec2.from (.Int 320) (.Int 240)
    layer := .Background
    origin := .Centre
    start_time := none
    end_time := none }

/-- `impl Into<Sprite> for (Origin, String)`. -/
def spriteOfOriginString (origin : Origin) (path : String) : Sprite :=
  { events := EventCollection.new
    current_depth := 0
    path := path
    pos := Vec2.from (.Int 320) (.Int 240)
    layer := .Background
    origin := origin
    start_time := none
    end_time := none }

/-- `impl Into<Sprite> for (Origin, &str)`. -/
def spriteOfOriginStr (origin : Origin) (path : String) : Sprite :=
  { events := EventCollection.new
    current_depth := 0
    path := path
    pos := Vec2.from (.Int 320) (.Int 240)
    layer := .Background
    origin := origin
    start_time := none
    end_time := none }

/-- `impl Into<Sprite> for (String, Vec2)`. -/
def spriteOfStringVec (path : String) (pos : Vec2) : Sprite :=
  { events := EventCollection.new
    current_depth := 0
    path := path
    pos := pos
    layer := .Background
    origin := .Centre
    start_time := none
    end_time := none }

/-- `impl Into<Sprite> for (String, T, U)` with `T, U : Into<Number>`: the
two components reach the core as canonical numbers. -/
def spriteOfStringXY (path : String) (x y : Number) : Sprite :=
  { events := EventCollection.new
    current_depth := 0
    path := path
    pos := Vec2.from x y
    layer := .Background
    origin := .Centre
    start_time := none
    end_time := none }

/-- `impl Into<Sprite> for (&str, Vec2)`. -/
def spriteOfStrVec (path : String) (pos : Vec2) : Sprite :=
  { events := EventCollection.new
    current_depth := 0
    path := path
    pos := pos
    layer := .Background
    origin := .Centre
    start_time := none
    end_time := none }

/-- `impl Into<Sprite> for (&str, T, U)` with `T, U : Into<Number>`. -/
def spriteOfStrXY (path : String) (x y : Number) : Sprite :=
  { events := EventCollection.new
    current_depth := 0
    path := path
    pos := Vec2.from x y
    layer := .Background
    origin := .Centre
    start_time := none
    end_time := none }

/-- `impl Into<Sprite> for (Origin, String, Vec2)`. -/
def spriteOfOriginStringVec (origin : Origin) (path : String) (pos : Vec2) : Sprite :=
  { events := EventCollection.new
    current_depth := 0
    path := path
    pos := pos
    layer := .Background
    origin := origin
    start_time := none
    end_time := none }

/-- `impl Into<Sprite> for (Origin, String, T, U)` with `T, U : Into<Number>`. -/
def spriteOfOriginStringXY (origin : Origin) (path : String) (x y : Number) : Sprite :=
  { events := EventCollection.new
    current_depth := 0
    path := path
    pos := Vec2.from x y
    layer := .Background
    origin := origin
    start_time := none
    end_time := none }

/-- `impl Into<Sprite> for (Origin, &str, Vec2)`. -/
def spriteOfOriginStrVec (origin : Origin) (path : String) (pos : Vec2) : Sprite :=
  { events := EventCollection.new
    current_depth := 0
    path := path
    pos := pos
    layer := .Background
    origin := origin
    start_time := none
    end_time := none }

/-- `impl Into<Sprite> for (Origin, &str, T, U)` with `T, U : Into<Number>`. -/
def spriteOfOriginStrXY (origin : Origin) (path : String) (x y : Number) : Sprite :=
  { events := EventCollection.new
    current_depth := 0
    path := path
    pos := Vec2.from x y
    layer := .Background
    origin := origin
    start_time := none
    end_time := none }

/-- A single append request of any of the four kinds, used to talk about
arbitrary interleavings of the kind-specific append operations. -/
inductive SpriteEvent where
  | mv (event : Move)
  | fd (event : Fade)
  | rot (event : Rotate)
  | scl (event : Scale)
deriving DecidableEq

/-- The `get_start_time()` of the wrapped event. -/
def SpriteEvent.startOf : SpriteEvent → Int
  | .mv event => event.get_start_time
  | .fd event => event.get_start_time
  | .rot event => event.get_start_time
  | .scl event => event.get_start_time

/-- The `get_end_time()` of the wrapped event. -/
def SpriteEvent.endOf : SpriteEvent → Int
  | .mv event => event.get_end_time
  | .fd event => event.get_end_time
  | .rot event => event.get_end_time
  | .scl event => event.get_end_time

/-- Dispatch one append request to the matching kind-specific operation. -/
def Sprite.append (self : Sprite) : SpriteEvent → Sprite
  | .mv event => self.move_ event
  | .fd event => self.fade_ event
  | .rot event => self.rotate_ event
  | .scl event => self.scale_ event

/-- Perform a sequence of append requests in order. -/
def Sprite.appendAll (self : Sprite) (events : List SpriteEvent) : Sprite :=
  events.foldl Sprite.append self

/-- The command part of a `Fade` line: everything after the leading spaces.
Shaped after the spec's §6 grammar, to be compared with `Fade.to_line`. -/
def Fade.body : Fade → String
  | .Static _ time value => "F,0," ++ toString time ++ ",," ++ toString value
  | .Dynamic _ easing start_time end_time start_value end_value =>
      "F," ++ toString easing.id ++ "," ++ toString start_time ++ "," ++ toString end_time
        ++ "," ++ toString start_value ++ "," ++ toString end_value

theorem to_line_eq_spaces_body (f : Fade) :
    f.to_line = spaces (f.depth + 1) ++ f.body := by
  cases f
  all_goals
    apply String.ext
    simp [Fade.to_line, Fade.depth, Fade.body, spaces, String.data_append,
      List.replicate_succ', show toString (0 : Nat) = "0" from rfl, Easing.id]

/-- Claim C2: `Fade::to_line` renders exactly the renderer grammar at the
stored depth — a Static event with depth `d`, time `t`, value `v` renders as
`d + 1` leading spaces then `F,0,t,,v` (easing id 0 for the implied Linear),
a Dynamic event with depth `d`, easing `e`, times `s, t`, values `sv, ev`
renders as `d + 1` leading spaces then `F,<id e>,s,t,sv,ev`; in particular
`Fade::Dynamic` built from `(QuadOut, 0, 1000, 0, 1)` at depth 0 renders
`" F,4,0,1000,0,1"`. -/
theorem fade_to_line_grammar :
    (∀ (d : Nat) (t v : Int),
      (Fade.Static d t v).to_line
        = spaces (d + 1) ++ ("F,0," ++ toString t ++ ",," ++ toString v))
    ∧ (∀ (d : Nat) (e : Easing) (s t sv ev : Int),
      (Fade.Dynamic d e s t sv ev).to_line
        = spaces (d + 1) ++ ("F," ++ toString e.id ++ "," ++ toString s ++ ","
            ++ toString t ++ "," ++ toString sv ++ "," ++ toString ev))
    ∧ (fadeOfEasingTimes (.QuadOut, 0, 1000, 0, 1)).to_line = " F,4,0,1000,0,1" := by
  refine ⟨fun d t v => ?_, fun d e s t sv ev => ?_, by decide⟩
  · exact to_line_eq_spaces_body (Fade.Static d t v)
  · exact to_line_eq_spaces_body (Fade.Dynamic d e s t sv ev)

/-- Claim C5: `Fade::set_depth(d)` overwrites only the stored depth — the
variant shape and all time, easing and value fields are unchanged — it is
idempotent under repeated calls with the same `d`, and a subsequent
`to_line` carries exactly `d` extra leading spaces before the command token
in addition to the single mandatory separator space. -/
theorem fade_set_depth_only_depth :
    (∀ (d d0 : Nat) (t v : Int), (Fade.Static d0 t v).set_depth d = Fade.Static d t v)
    ∧ (∀ (d d0 : Nat) (e : Easing) (s t sv ev : Int),
        (Fade.Dynamic d0 e s t sv ev).set_depth d = Fade.Dynamic d e s t sv ev)
    ∧ (∀ (f : Fade) (d : Nat), (f.set_depth d).set_depth d = f.set_depth d)
    ∧ (∀ (f : Fade) (d : Nat), (f.set_depth d).depth = d)
    ∧ (∀ (f : Fade) (d : Nat), (f.set_depth d).body = f.body)
    ∧ (∀ (f : Fade) (d : Nat), (f.set_depth d).to_line = spaces (d + 1) ++ f.body) := by
  refine ⟨fun d d0 t v => rfl, fun d d0 e s t sv ev => rfl,
    fun f d => by cases f <;> rfl, fun f d => by cases f <;> rfl,
    fun f d => by cases f <;> rfl, fun f d => ?_⟩
  rw [to_line_eq_spaces_body]
  cases f <;> rfl

/-- Claim C6: for every Static event, `get_start_time` and `get_end_time`
both return the single stored time; for every Dynamic event they return the
stored `start_time` and `end_time` literally, with no clamping or swapping,
even when `start_time > end_time` (checked on the concrete unordered range
`1000 > 0`). -/
theorem fade_time_accessors :
    (∀ (d : Nat) (t v : Int), (Fade.Static d t v).get_start_time = t)
    ∧ (∀ (d : Nat) (t v : Int), (Fade.Static d t v).get_end_time = t)
    ∧ (∀ (d : Nat) (e : Easing) (st et sv ev : Int),
        (Fade.Dynamic d e st et sv ev).get_start_time = st)
    ∧ (∀ (d : Nat) (e : Easing) (st et sv ev : Int),
        (Fade.Dynamic d e st et sv ev).get_end_time = et)
    ∧ (Fade.Dynamic 0 .Linear 1000 0 0 1).get_start_time = 1000
    ∧ (Fade.Dynamic 0 .Linear 1000 0 0 1).get_end_time = 0 :=
  ⟨fun _ _ _ => rfl, fun _ _ _ => rfl, fun _ _ _ _ _ _ => rfl, fun _ _ _ _ _ _ => rfl,
    rfl, rfl⟩

/-- The running-window fold on the start side, as the spec words it: the new
start is the event's start if none is recorded, else the minimum of the two. -/
def foldStart (o : Option Int) (t : Int) : Option Int :=
  some (o.elim t fun u => min u t)

/-- The running-window fold on the end side: the new end is the event's end
if none is recorded, else the maximum of the two. -/
def foldEnd (o : Option Int) (t : Int) : Option Int :=
  some (o.elim t fun u => max u t)

theorem process_event_eq (s : Sprite) (a b : Int) :
    s.process_event a b
      = { s with start_time := foldStart s.start_time a,
                 end_time := foldEnd s.end_time b } := by
  obtain ⟨ev, cd, pa, po, la, og, st, et⟩ := s
  unfold Sprite.process_event
  cases st <;> cases et <;>
    (try simp [foldStart, foldEnd]) <;>
    (try split_ifs) <;>
    (try simp [Sprite.mk.injEq]) <;>
    (try split_ifs) <;>
    (try simp [Sprite.mk.injEq]) <;>
    omega

theorem move_append_eq (s : Sprite) (m : Move) :
    s.move_ m
      = { s with start_time := foldStart s.start_time m.get_start_time,
                 end_time := foldEnd s.end_time m.get_end_time,
                 events := { s.events with
                   move_ := s.events.move_ ++ [m.set_depth s.current_depth] } } := by
  simp [Sprite.move_, process_event_eq]

theorem fade_append_eq (s : Sprite) (f : Fade) :
    s.fade_ f
      = { s with start_time := foldStart s.start_time f.get_start_time,
                 end_time := foldEnd s.end_time f.get_end_time,
                 events := { s.events with
                   fade_ := s.events.fade_ ++ [f.set_depth s.current_depth] } } := by
  simp [Sprite.fade_, process_event_eq]

theorem rotate_append_eq (s : Sprite) (r : Rotate) :
    s.rotate_ r
      = { s with start_time := foldStart s.start_time r.get_start_time,
                 end_time := foldEnd s.end_time r.get_end_time,
                 events := { s.events with
                   rotate_ := s.events.rotate_ ++ [r.set_depth s.current_depth] } } := by
  simp [Sprite.rotate_, process_event_eq]

theorem scale_append_eq (s : Sprite) (c : Scale) :
    s.scale_ c
      = { s with start_time := foldStart s.start_time c.get_start_time,
                 end_time := foldEnd s.end_time c.get_end_time,
                 events := { s.events with
                   scale_ := s.events.scale_ ++ [c.set_depth s.current_depth] } } := by
  simp [Sprite.scale_, process_event_eq]

theorem append_start_time (s : Sprite) (e : SpriteEvent) :
    (s.append e).start_time = foldStart s.start_time e.startOf := by
  cases e <;>
    simp [Sprite.append, move_append_eq, fade_append_eq, rotate_append_eq,
      scale_append_eq, SpriteEvent.startOf]

theorem append_end_time (s : Sprite) (e : SpriteEvent) :
    (s.append e).end_time = foldEnd s.end_time e.endOf := by
  cases e <;>
    simp [Sprite.append, move_append_eq, fade_append_eq, rotate_append_eq,
      scale_append_eq, SpriteEvent.endOf]

theorem append_current_depth (s : Sprite) (e : SpriteEvent) :
    (s.append e).current_depth = s.current_depth := by
  cases e <;>
    simp [Sprite.append, move_append_eq, fade_append_eq, rotate_append_eq,
      scale_append_eq]

/-- The wrapped `Move` event of an append request, if it is one. -/
def SpriteEvent.moveOf : SpriteEvent → Option Move
  | .mv event => some event
  | _ => none

/-- The wrapped `Fade` event of an append request, if it is one. -/
def SpriteEvent.fadeOf : SpriteEvent → Option Fade
  | .fd event => some event
  | _ => none

/-- The wrapped `Rotate` event of an append request, if it is one. -/
def SpriteEvent.rotOf : SpriteEvent → Option Rotate
  | .rot event => some event
  | _ => none

/-- The wrapped `Scale` event of an append request, if it is one. -/
def SpriteEvent.sclOf : SpriteEvent → Option Scale
  | .scl event => some event
  | _ => none

theorem append_move_group (s : Sprite) (e : SpriteEvent) :
    (s.append e).events.move_
      = s.events.move_ ++ (e.moveOf.toList.map fun m => m.set_depth s.current_depth) := by
  cases e <;>
    simp [Sprite.append, move_append_eq, fade_append_eq, rotate_append_eq,
      scale_append_eq, SpriteEvent.moveOf]

theorem append_fade_group (s : Sprite) (e : SpriteEvent) :
    (s.append e).events.fade_
      = s.events.fade_ ++ (e.fadeOf.toList.map fun f => f.set_depth s.current_depth) := by
  cases e <;>
    simp [Sprite.append, move_append_eq, fade_append_eq, rotate_append_eq,
      scale_append_eq, SpriteEvent.fadeOf]

theorem append_rotate_group (s : Sprite) (e : SpriteEvent) :
    (s.append e).events.rotate_
      = s.events.rotate_ ++ (e.rotOf.toList.map fun r => r.set_depth s.current_depth) := by
  cases e <;>
    simp [Sprite.append, move_append_eq, fade_append_eq, rotate_append_eq,
      scale_append_eq, SpriteEvent.rotOf]

theorem append_scale_group (s : Sprite) (e : SpriteEvent) :
    (s.append e).events.scale_
      = s.events.scale_ ++ (e.sclOf.toList.map fun c => c.set_depth s.current_depth) := by
  cases e <;>
    simp [Sprite.append, move_append_eq, fade_append_eq, rotate_append_eq,
      scale_append_eq, SpriteEvent.sclOf]

theorem appendAll_cons (s : Sprite) (e : SpriteEvent) (es : List SpriteEvent) :
    s.appendAll (e :: es) = (s.append e).appendAll es := rfl

theorem appendAll_start_time (s : Sprite) (es : List SpriteEvent) :
    (s.appendAll es).start_time
      = match s.start_time with
        | none => (es.map SpriteEvent.startOf).min?
        | some t => some ((es.map SpriteEvent.startOf).foldl min t) := by
  induction es generalizing s with
  | nil => cases hs : s.start_time <;> simp [Sprite.appendAll, hs, List.min?]
  | cons e rest ih =>
    rw [appendAll_cons, ih, append_start_time]
    cases hs : s.start_time <;>
      simp [foldStart, List.min?, List.foldl_cons]

theorem appendAll_end_time (s : Sprite) (es : List SpriteEvent) :
    (s.appendAll es).end_time
      = match s.end_time with
        | none => (es.map SpriteEvent.endOf).max?
        | some t => some ((es.map SpriteEvent.endOf).foldl max t) := by
  induction es generalizing s with
  | nil => cases hs : s.end_time <;> simp [Sprite.appendAll, hs, List.max?]
  | cons e rest ih =>
    rw [appendAll_cons, ih, append_end_time]
    cases hs : s.end_time <;>
      simp [foldEnd, List.max?, List.foldl_cons]

theorem appendAll_current_depth (s : Sprite) (es : List SpriteEvent) :
    (s.appendAll es).current_depth = s.current_depth := by
  induction es generalizing s with
  | nil => rfl
  | cons e rest ih => rw [appendAll_cons, ih, append_current_depth]

theorem appendAll_move_group (s : Sprite) (es : List SpriteEvent) :
    (s.appendAll es).events.move_
      = s.events.move_
        ++ (es.filterMap SpriteEvent.moveOf).map (fun m => m.set_depth s.current_depth) := by
  induction es generalizing s with
  | nil => simp [Sprite.appendAll]
  | cons e rest ih =>
    rw [appendAll_cons, ih, append_current_depth, append_move_group]
    cases e <;> simp [SpriteEvent.moveOf, List.filterMap_cons]

theorem appendAll_fade_group (s : Sprite) (es : List SpriteEvent) :
    (s.appendAll es).events.fade_
      = s.events.fade_
        ++ (es.filterMap SpriteEvent.fadeOf).map (fun f => f.set_depth s.current_depth) := by
  induction es generalizing s with
  | nil => simp [Sprite.appendAll]
  | cons e rest ih =>
    rw [appendAll_cons, ih, append_current_depth, append_fade_group]
    cases e <;> simp [SpriteEvent.fadeOf, List.filterMap_cons]

theorem appendAll_rotate_group (s : Sprite) (es : List SpriteEvent) :
    (s.appendAll es).events.rotate_
      = s.events.rotate_
        ++ (es.filterMap SpriteEvent.rotOf).map (fun r => r.set_depth s.current_depth) := by
  induction es generalizing s with
  | nil => simp [Sprite.appendAll]
  | cons e rest ih =>
    rw [appendAll_cons, ih, append_current_depth, append_rotate_group]
    cases e <;> simp [SpriteEvent.rotOf, List.filterMap_cons]

theorem appendAll_scale_group (s : Sprite) (es : List SpriteEvent) :
    (s.appendAll es).events.scale_
      = s.events.scale_
        ++ (es.filterMap SpriteEvent.sclOf).map (fun c => c.set_depth s.current_depth) := by
  induction es generalizing s with
  | nil => simp [Sprite.appendAll]
  | cons e rest ih =>
    rw [appendAll_cons, ih, append_current_depth, append_scale_group]
    cases e <;> simp [SpriteEvent.sclOf, List.filterMap_cons]

theorem join_cons (a : String) (l : List String) :
    String.join (a :: l) = a ++ String.join l := by
  apply String.ext
  simp [String.join_eq, String.data_append]

/-- Claim C1: before any event is appended both `start_time()` and
`end_time()` are `None`; after any sequence of appends, of any kinds in any
order, `start_time()` is `Some` of the minimum of all appended events'
`get_start_time()` values and `end_time()` is `Some` of the maximum of all
their `get_end_time()` values; an individual append never increases the
recorded start nor decreases the recorded end. -/
theorem sprite_time_window :
    (∀ path, (spriteOfStr path).start_time = none ∧ (spriteOfStr path).end_time = none)
    ∧ (∀ s : Sprite, s.start_time = none → s.end_time = none →
        ∀ es : List SpriteEvent,
          (s.appendAll es).start_time = (es.map SpriteEvent.startOf).min?
          ∧ (s.appendAll es).end_time = (es.map SpriteEvent.endOf).max?)
    ∧ (∀ (s : Sprite) (e : SpriteEvent) (t : Int), s.start_time = some t →
        ∃ u, (s.append e).start_time = some u ∧ u ≤ t)
    ∧ (∀ (s : Sprite) (e : SpriteEvent) (t : Int), s.end_time = some t →
        ∃ u, (s.append e).end_time = some u ∧ t ≤ u) := by
  refine ⟨fun path => ⟨rfl, rfl⟩, fun s hs he es => ⟨?_, ?_⟩,
    fun s e t ht => ⟨min t e.startOf, ?_, min_le_left t e.startOf⟩,
    fun s e t ht => ⟨max t e.endOf, ?_, le_max_left t e.endOf⟩⟩
  · rw [appendAll_start_time]; simp [hs]
  · rw [appendAll_end_time]; simp [he]
  · rw [append_start_time]; simp [foldStart, ht]
  · rw [append_end_time]; simp [foldEnd, ht]

/-- Witness for C1: on a fresh sprite, appending a Move spanning 100..200
then a Fade spanning 0..100 yields `start_time = Some 0` and
`end_time = Some 200` (the spec's §8 literal scenario), and a further append
onto the recorded window `[0, 200]` keeps the start at most 0 and the end at
least 200. -/
theorem sprite_time_window_witness :
    ((spriteOfStr "bg.png").appendAll
        [.mv (Move.Dynamic 0 .Linear 100 200 (Vec2.from (.Int 0) (.Int 0))
          (Vec2.from (.Int 320) (.Int 240))),
         .fd (Fade.Dynamic 0 .Linear 0 100 0 1)]).start_time = some 0
    ∧ ((spriteOfStr "bg.png").appendAll
        [.mv (Move.Dynamic 0 .Linear 100 200 (Vec2.from (.Int 0) (.Int 0))
          (Vec2.from (.Int 320) (.Int 240))),
         .fd (Fade.Dynamic 0 .Linear 0 100 0 1)]).end_time = some 200
    ∧ (∃ u, (((spriteOfStr "bg.png").appendAll
        [.mv (Move.Dynamic 0 .Linear 100 200 (Vec2.from (.Int 0) (.Int 0))
          (Vec2.from (.Int 320) (.Int 240))),
         .fd (Fade.Dynamic 0 .Linear 0 100 0 1)]).append
          (.scl (Scale.Static 0 500 (.Int 2)))).start_time = some u ∧ u ≤ 0)
    ∧ (∃ u, (((spriteOfStr "bg.png").appendAll
        [.mv (Move.Dynamic 0 .Linear 100 200 (Vec2.from (.Int 0) (.Int 0))
          (Vec2.from (.Int 320) (.Int 240))),
         .fd (Fade.Dynamic 0 .Linear 0 100 0 1)]).append
          (.scl (Scale.Static 0 500 (.Int 2)))).end_time = some u ∧ 200 ≤ u) := by
  obtain ⟨h1, h2, h3, h4⟩ := sprite_time_window
  have hs : ((spriteOfStr "bg.png").appendAll
      [.mv (Move.Dynamic 0 .Linear 100 200 (Vec2.from (.Int 0) (.Int 0))
        (Vec2.from (.Int 320) (.Int 240))),
       .fd (Fade.Dynamic 0 .Linear 0 100 0 1)]).start_time = some 0 :=
    (h2 (spriteOfStr "bg.png") rfl rfl
      [.mv (Move.Dynamic 0 .Linear 100 200 (Vec2.from (.Int 0) (.Int 0))
        (Vec2.from (.Int 320) (.Int 240))),
       .fd (Fade.Dynamic 0 .Linear 0 100 0 1)]).1.trans (by decide)
  have he : ((spriteOfStr "bg.png").appendAll
      [.mv (Move.Dynamic 0 .Linear 100 200 (Vec2.from (.Int 0) (.Int 0))
        (Vec2.from (.Int 320) (.Int 240))),
       .fd (Fade.Dynamic 0 .Linear 0 100 0 1)]).end_time = some 200 :=
    (h2 (spriteOfStr "bg.png") rfl rfl
      [.mv (Move.Dynamic 0 .Linear 100 200 (Vec2.from (.Int 0) (.Int 0))
        (Vec2.from (.Int 320) (.Int 240))),
       .fd (Fade.Dynamic 0 .Linear 0 100 0 1)]).2.trans (by decide)
  exact ⟨hs, he, h3 _ (.scl (Scale.Static 0 500 (.Int 2))) 0 hs,
    h4 _ (.scl (Scale.Static 0 500 (.Int 2))) 200 he⟩

/-- Claim C3: the textual body produced by `to_str` is the concatenation of
the four kind groups in the fixed order Move, Fade, Rotate, Scale regardless
of the interleaving of the appends, each event contributing its `to_line`
output followed by one newline, insertion order preserved within each group,
and empty groups contributing the empty string. -/
theorem event_collection_grouping (s : Sprite) (es : List SpriteEvent) :
    (s.appendAll es).events.to_str
      = groupLines Move.to_line
          (s.events.move_
            ++ (es.filterMap SpriteEvent.moveOf).map (fun m => m.set_depth s.current_depth))
        ++ groupLines Fade.to_line
          (s.events.fade_
            ++ (es.filterMap SpriteEvent.fadeOf).map (fun f => f.set_depth s.current_depth))
        ++ groupLines Rotate.to_line
          (s.events.rotate_
            ++ (es.filterMap SpriteEvent.rotOf).map (fun r => r.set_depth s.current_depth))
        ++ groupLines Scale.to_line
          (s.events.scale_
            ++ (es.filterMap SpriteEvent.sclOf).map (fun c => c.set_depth s.current_depth))
    ∧ (∀ f : Fade → String, groupLines f ([] : List Fade) = "")
    ∧ (∀ (f : Fade → String) (x : Fade) (l : List Fade),
        groupLines f (x :: l) = (f x ++ "\n") ++ groupLines f l) := by
  refine ⟨?_, fun f => rfl, fun f x l => ?_⟩
  · simp only [EventCollection.to_str, appendAll_move_group, appendAll_fade_group,
      appendAll_rotate_group, appendAll_scale_group]
  · simp only [groupLines, List.map_cons, join_cons]

/-- Claim C4: each kind-specific append (`move_`, `fade_`, `rotate_`,
`scale_`) folds the event's `get_start_time`/`get_end_time` into the running
window, stamps the event with the sprite's `current_depth`, and pushes it
onto the group of its own kind; the stored event's depth equals
`current_depth` at append time and events of one kind appear in call
order. -/
theorem kind_append_contract (s : Sprite) :
    (∀ m : Move, s.move_ m
      = { s with start_time := foldStart s.start_time m.get_start_time,
                 end_time := foldEnd s.end_time m.get_end_time,
                 events := { s.events with
                   move_ := s.events.move_ ++ [m.set_depth s.current_depth] } })
    ∧ (∀ f : Fade, s.fade_ f
      = { s with start_time := foldStart s.start_time f.get_start_time,
                 end_time := foldEnd s.end_time f.get_end_time,
                 events := { s.events with
                   fade_ := s.events.fade_ ++ [f.set_depth s.current_depth] } })
    ∧ (∀ r : Rotate, s.rotate_ r
      = { s with start_time := foldStart s.start_time r.get_start_time,
                 end_time := foldEnd s.end_time r.get_end_time,
                 events := { s.events with
                   rotate_ := s.events.rotate_ ++ [r.set_depth s.current_depth] } })
    ∧ (∀ c : Scale, s.scale_ c
      = { s with start_time := foldStart s.start_time c.get_start_time,
                 end_time := foldEnd s.end_time c.get_end_time,
                 events := { s.events with
                   scale_ := s.events.scale_ ++ [c.set_depth s.current_depth] } })
    ∧ (∀ m : Move, (m.set_depth s.current_depth).depth = s.current_depth)
    ∧ (∀ f : Fade, (f.set_depth s.current_depth).depth = s.current_depth)
    ∧ (∀ r : Rotate, (r.set_depth s.current_depth).depth = s.current_depth)
    ∧ (∀ c : Scale, (c.set_depth s.current_depth).depth = s.current_depth)
    ∧ (∀ f g : Fade, ((s.fade_ f).fade_ g).events.fade_
        = s.events.fade_ ++ [f.set_depth s.current_depth, g.set_depth s.current_depth]) := by
  refine ⟨move_append_eq s, fade_append_eq s, rotate_append_eq s, scale_append_eq s,
    fun m => by cases m <;> rfl, fun f => by cases f <;> rfl,
    fun r => by cases r <;> rfl, fun c => by cases c <;> rfl, fun f g => ?_⟩
  rw [fade_append_eq, fade_append_eq]
  simp

/-- Claim C7: the full rendering `to_str` is exactly one header line
`Sprite,<Layer>,<Origin>,"<path>",<x>,<y>` — comma-separated, the path in
double quotes, `x`/`y` the sprite's initial position — followed by a newline
and then the event-collection body; checked symbolically for every sprite
and bit-exactly on a concrete sprite carrying one fade event. -/
theorem sprite_render_header (s : Sprite) :
    s.to_str
      = "Sprite," ++ s.layer.toStr ++ "," ++ s.origin.toStr ++ ",\"" ++ s.path
          ++ "\"," ++ s.pos.x.toStr ++ "," ++ s.pos.y.toStr ++ "\n" ++ s.events.to_str
    ∧ s.get_x = s.pos.x
    ∧ s.get_y = s.pos.y
    ∧ ((spriteOfStr "bg.png").fade_ (fadeOfTimeValue (0, 1))).to_str
        = "Sprite,Background,Centre,\"bg.png\",320,240\n F,0,0,,1\n" := by
  exact ⟨rfl, rfl, rfl, by decide⟩

/-- Claim C8: all supported construction shapes (path alone as owned or
borrowed string; origin+path; path+position as a 2-D value or as two
components; origin+path+position) converge to the same canonical state when
given the same values: the given path, origin defaulting to `Centre` and
position defaulting to `(320, 240)` when omitted, layer always `Background`,
depth 0, empty event collection, and both window ends `None`. -/
theorem construction_convergence :
    (∀ p, spriteOfString p = spriteOfStr p)
    ∧ (∀ p, spriteOfStr p
        = { events := EventCollection.new, current_depth := 0, path := p,
            pos := Vec2.from (.Int 320) (.Int 240), layer := .Background,
            origin := .Centre, start_time := none, end_time := none })
    ∧ (∀ o p, spriteOfOriginString o p = spriteOfOriginStr o p)
    ∧ (∀ p, spriteOfOriginStr .Centre p = spriteOfStr p)
    ∧ (∀ p pos, spriteOfStringVec p pos = spriteOfStrVec p pos)
    ∧ (∀ p, spriteOfStrVec p (Vec2.from (.Int 320) (.Int 240)) = spriteOfStr p)
    ∧ (∀ p x y, spriteOfStringXY p x y = spriteOfStrXY p x y)
    ∧ (∀ p x y, spriteOfStrXY p x y = spriteOfStrVec p (Vec2.from x y))
    ∧ (∀ o p pos, spriteOfOriginStringVec o p pos = spriteOfOriginStrVec o p pos)
    ∧ (∀ o p pos, spriteOfOriginStrVec o p pos
        = { events := EventCollection.new, current_depth := 0, path := p, pos := pos,
            layer := .Background, origin := o, start_time := none, end_time := none })
    ∧ (∀ o p x y, spriteOfOriginStringXY o p x y = spriteOfOriginStrXY o p x y)
    ∧ (∀ o p x y, spriteOfOriginStrXY o p x y = spriteOfOriginStrVec o p (Vec2.from x y))
    ∧ (∀ p pos, spriteOfStrVec p pos = spriteOfOriginStrVec .Centre p pos) :=
  ⟨fun _ => rfl, fun _ => rfl, fun _ _ => rfl, fun _ => rfl, fun _ _ => rfl,
    fun _ => rfl, fun _ _ _ => rfl, fun _ _ _ => rfl, fun _ _ _ => rfl,
    fun _ _ _ => rfl, fun _ _ _ _ => rfl, fun _ _ _ _ => rfl, fun _ _ => rfl⟩

/-- Claim C9: the core operations are total, and in particular a Dynamic
event whose `start_time` equals or exceeds its `end_time` is constructed
successfully, accepted by the append operations, and rendered verbatim
rather than rejected or normalized. -/
theorem unordered_range_accepted (st et sv ev : Int) (_h : et ≤ st) :
    fadeOfTimes (st, et, sv, ev) = Fade.Dynamic 0 .Linear st et sv ev
    ∧ (∀ s : Sprite, (s.fade_ (fadeOfTimes (st, et, sv, ev))).events.fade_
        = s.events.fade_ ++ [Fade.Dynamic s.current_depth .Linear st et sv ev])
    ∧ (fadeOfTimes (st, et, sv, ev)).to_line
        = " F,0," ++ toString st ++ "," ++ toString et ++ "," ++ toString sv
            ++ "," ++ toString ev := by
  refine ⟨rfl, fun s => ?_, ?_⟩
  · rw [fade_append_eq]
    simp [fadeOfTimes, Fade.set_depth]
  · apply String.ext
    simp [fadeOfTimes, Fade.to_line, spaces, String.data_append, Easing.id,
      show toString (0 : Nat) = "0" from rfl]

/-- Witness for C9: the unordered range `start_time = 1000 ≥ 0 = end_time`
is constructed, stored by `fade_`, and rendered verbatim as
`" F,0,1000,0,0,1"`. -/
theorem unordered_range_accepted_witness :
    (0 : Int) ≤ 1000
    ∧ fadeOfTimes (1000, 0, 0, 1) = Fade.Dynamic 0 .Linear 1000 0 0 1
    ∧ ((spriteOfStr "bg.png").fade_ (fadeOfTimes (1000, 0, 0, 1))).events.fade_
        = [Fade.Dynamic 0 .Linear 1000 0 0 1]
    ∧ (fadeOfTimes (1000, 0, 0, 1)).to_line = " F,0,1000,0,0,1" := by
  have h := unordered_range_accepted 1000 0 0 1 (by decide)
  exact ⟨by decide, h.1, (h.2.1 (spriteOfStr "bg.png")).trans (by decide),
    h.2.2.trans (by decide)⟩

/-- Claim C10: a freshly constructed sprite with no events renders as
exactly the header line terminated by a single newline and nothing else —
the empty event collection serializes to the empty string. -/
theorem fresh_sprite_render (p : String) :
    EventCollection.new.to_str = ""
    ∧ (spriteOfStr p).to_str = "Sprite,Background,Centre,\"" ++ p ++ "\",320,240\n"
    ∧ (spriteOfString p).to_str = "Sprite,Background,Centre,\"" ++ p ++ "\",320,240\n" := by
  refine ⟨rfl, ?_, ?_⟩ <;>
  · apply String.ext
    simp [Sprite.to_str, spriteOfStr, spriteOfString, Layer.toStr, Origin.toStr,
      Number.toStr, Vec2.from, EventCollection.to_str, EventCollection.new,
      groupLines, String.data_append,
      show toString (320 : Int) = "320" from rfl,
      show toString (240 : Int) = "240" from rfl]
